import Mathlib

/-!
Shallow embedding of the Student Alert Generator engine
(`backend/app/services/alert_generator_agent.py`,
`backend/app/services/langgraph/gemini_insight_agent.py`,
`backend/app/services/langgraph/insight_agent.py`).

Python floats are modelled as `ℚ`; Python strings as Lean `String`;
`Optional`/possibly-absent dict arguments as `Option`; the generative
backend (network call, JSON parsing, per-item validation) as an explicit
outcome value supplied to the orchestrator; the `random` module as an
explicit `RandomSource` record carrying the values each draw would
produce. Timestamps (`generated_at`) are omitted: no claim concerns them.
Numeric-to-string formatting inside interpolated messages is rendered via
`toString` on `ℚ`; no theorem depends on the rendered digits. Decimal
literals of the source are written `mkRat n d` (e.g. `0.88` as
`mkRat 88 100`, `3.5` as `mkRat 35 10`) so that every term reduces inside
the kernel.
-/

/-- Embedding of `StudentAlertInput` (alert_generator_agent.py, lines 15-23).
`behavior_notes`, `participation_level`, `additional_comments` default to
`""`/`"medium"`/`""` in the source; here they are plain fields. -/
structure StudentAlertInput where
  name : String
  roll_number : String
  attendance_percentage : ℚ
  academic_performance : ℚ
  behavior_notes : String
  participation_level : String
  additional_comments : String
deriving DecidableEq, Repr

/-- Embedding of `GeneratedAlert` (alert_generator_agent.py, lines 26-36). -/
structure GeneratedAlert where
  alert_type : String
  priority : String
  category : String
  title : String
  message : String
  action_required : Bool
  suggestions : List String
  reasoning : String
  confidence_score : ℚ
deriving DecidableEq, Repr

/-- Attendance branch of `_generate_rule_based_alerts`
(alert_generator_agent.py, lines 162-210): an `if`/`elif` chain appending
at most one alert, embedded as an `Option`. -/
def attendance_branch (s : StudentAlertInput) : Option GeneratedAlert :=
  if s.attendance_percentage < 75 then
    some
      { alert_type := "error"
        priority := "high"
        category := "attendance"
        title := "Critical Attendance Alert"
        message := s.name ++ "'s attendance is at " ++ toString s.attendance_percentage ++
          "%, which is critically below the required 75% minimum. Immediate intervention is necessary to prevent academic consequences."
        action_required := true
        suggestions :=
          ["Schedule immediate meeting with student and parents",
           "Review reasons for absences",
           "Create attendance improvement plan",
           "Monitor daily attendance closely"]
        reasoning := "Attendance at " ++ toString s.attendance_percentage ++ "% is below minimum threshold"
        confidence_score := mkRat 95 100 }
  else if s.attendance_percentage < 85 then
    some
      { alert_type := "warning"
        priority := "medium"
        category := "attendance"
        title := "Attendance Needs Improvement"
        message := s.name ++ "'s attendance is at " ++ toString s.attendance_percentage ++
          "%, which is below optimal levels. Consistent attendance is crucial for academic success."
        action_required := true
        suggestions :=
          ["Contact parents about attendance patterns",
           "Identify barriers to regular attendance",
           "Set attendance improvement goals"]
        reasoning := "Attendance at " ++ toString s.attendance_percentage ++ "% is below optimal range"
        confidence_score := mkRat 85 100 }
  else if s.attendance_percentage ≥ 95 then
    some
      { alert_type := "success"
        priority := "low"
        category := "attendance"
        title := "Excellent Attendance Record"
        message := "Congratulations! " ++ s.name ++ " has maintained excellent attendance at " ++
          toString s.attendance_percentage ++ "%. This dedication to regular attendance supports academic success."
        action_required := false
        suggestions :=
          ["Recognize and reward consistent attendance",
           "Use as positive example for other students"]
        reasoning := "Attendance at " ++ toString s.attendance_percentage ++ "% exceeds excellence threshold"
        confidence_score := mkRat 90 100 }
  else none

/-- Academic branch of `_generate_rule_based_alerts`
(alert_generator_agent.py, lines 212-261). -/
def academic_branch (s : StudentAlertInput) : Option GeneratedAlert :=
  if s.academic_performance < 2 ∨ s.academic_performance < 50 then
    some
      { alert_type := "error"
        priority := "high"
        category := "academic"
        title := "Academic Performance Concern"
        message := s.name ++ "'s academic performance (" ++ toString s.academic_performance ++
          ") is significantly below expectations. Immediate academic support and intervention are required."
        action_required := true
        suggestions :=
          ["Arrange tutoring or academic support sessions",
           "Meet with teachers to identify specific challenges",
           "Develop personalized learning plan",
           "Consider additional study resources"]
        reasoning := "Academic performance of " ++ toString s.academic_performance ++ " is critically low"
        confidence_score := mkRat 92 100 }
  else if s.academic_performance < 3 ∨ s.academic_performance < 70 then
    some
      { alert_type := "warning"
        priority := "medium"
        category := "academic"
        title := "Academic Performance Below Average"
        message := s.name ++ "'s academic performance (" ++ toString s.academic_performance ++
          ") shows room for improvement. Additional support could help achieve better results."
        action_required := true
        suggestions :=
          ["Review study habits and time management",
           "Identify subjects needing extra attention",
           "Consider peer study groups or tutoring"]
        reasoning := "Academic performance of " ++ toString s.academic_performance ++ " is below average"
        confidence_score := mkRat 80 100 }
  else if s.academic_performance ≥ mkRat 35 10 ∨ s.academic_performance ≥ 85 then
    some
      { alert_type := "success"
        priority := "low"
        category := "academic"
        title := "Outstanding Academic Performance"
        message := "Excellent work! " ++ s.name ++ " is performing exceptionally well with a " ++
          toString s.academic_performance ++ " performance level. This demonstrates strong academic capability."
        action_required := false
        suggestions :=
          ["Encourage continued excellence",
           "Consider advanced or enrichment opportunities",
           "Recognize achievement publicly"]
        reasoning := "Academic performance of " ++ toString s.academic_performance ++ " is excellent"
        confidence_score := mkRat 88 100 }
  else none

/-- Participation branch of `_generate_rule_based_alerts`
(alert_generator_agent.py, lines 263-295). -/
def participation_branch (s : StudentAlertInput) : Option GeneratedAlert :=
  if s.participation_level = "low" then
    some
      { alert_type := "warning"
        priority := "medium"
        category := "engagement"
        title := "Low Class Participation"
        message := s.name ++ " shows low participation levels in class activities. Increased engagement could improve learning outcomes and social development."
        action_required := true
        suggestions :=
          ["Encourage active participation in discussions",
           "Identify barriers to engagement",
           "Create opportunities for comfortable participation",
           "Build confidence through smaller group activities"]
        reasoning := "Low participation level indicates engagement concerns"
        confidence_score := mkRat 75 100 }
  else if s.participation_level = "high" then
    some
      { alert_type := "success"
        priority := "low"
        category := "engagement"
        title := "Excellent Class Engagement"
        message := s.name ++ " demonstrates high levels of class participation and engagement. This active involvement enhances learning and contributes positively to the classroom environment."
        action_required := false
        suggestions :=
          ["Continue encouraging active participation",
           "Consider leadership opportunities"]
        reasoning := "High participation level shows strong engagement"
        confidence_score := mkRat 82 100 }
  else none

/-- Python `needle in haystack` substring test on character lists. -/
def listContains (haystack needle : List Char) : Bool :=
  match haystack with
  | [] => needle.isEmpty
  | _ :: t => needle.isPrefixOf haystack || listContains t needle

/-- Python `word in notes_lower` substring test on strings. -/
def strContains (haystack word : String) : Bool :=
  listContains haystack.data word.data

/-- Python `notes.lower()`: lowercase every character (modelled on the
character list so that it reduces in the kernel). -/
def pyLower (s : String) : String :=
  String.mk (s.data.map Char.toLower)

/-- Negative keyword test of the behavior branch (alert_generator_agent.py,
line 299): `any(word in notes.lower() for word in [...])`. -/
def negKeywordMatch (notes : String) : Bool :=
  ["disruptive", "concerning", "issue", "problem", "inappropriate"].any
    (fun w => strContains (pyLower notes) w)

/-- Positive keyword test of the behavior branch (alert_generator_agent.py,
line 316). -/
def posKeywordMatch (notes : String) : Bool :=
  ["excellent", "outstanding", "positive", "good", "respectful"].any
    (fun w => strContains (pyLower notes) w)

/-- Behavior branch of `_generate_rule_based_alerts`
(alert_generator_agent.py, lines 297-331): guarded by
`behavior_notes and len(behavior_notes) > 10`. -/
def behavior_branch (s : StudentAlertInput) : Option GeneratedAlert :=
  if s.behavior_notes ≠ "" ∧ 10 < s.behavior_notes.length then
    if negKeywordMatch s.behavior_notes then
      some
        { alert_type := "warning"
          priority := "high"
          category := "general"
          title := "Behavioral Attention Required"
          message := "Behavioral concerns have been noted for " ++ s.name ++ ": " ++
            s.behavior_notes ++ ". Addressing these issues promptly will support a positive learning environment."
          action_required := true
          suggestions :=
            ["Schedule counseling session",
             "Meet with parents to discuss behavior",
             "Develop behavior improvement plan",
             "Identify underlying causes"]
          reasoning := "Behavior notes indicate concerns requiring attention"
          confidence_score := mkRat 85 100 }
    else if posKeywordMatch s.behavior_notes then
      some
        { alert_type := "success"
          priority := "low"
          category := "general"
          title := "Positive Behavior Recognition"
          message := s.name ++ " demonstrates excellent behavior: " ++ s.behavior_notes ++
            ". This positive conduct contributes to a productive learning environment."
          action_required := false
          suggestions :=
            ["Recognize positive behavior publicly",
             "Continue positive reinforcement"]
          reasoning := "Behavior notes indicate positive conduct"
          confidence_score := mkRat 80 100 }
    else none
  else none

/-- Embedding of `_generate_rule_based_alerts` (alert_generator_agent.py,
lines 157-332): the four `if`/`elif` chains append, in order, at most one
alert each to the result list. -/
def generate_rule_based_alerts (s : StudentAlertInput) : List GeneratedAlert :=
  (attendance_branch s).toList ++ (academic_branch s).toList ++
    (participation_branch s).toList ++ (behavior_branch s).toList

/-- Result shape of `get_alert_summary` (alert_generator_agent.py,
lines 334-354); the nested `categories`/`types` dicts are flattened into
fields. -/
structure AlertSummary where
  total_alerts : ℕ
  high_priority_count : ℕ
  action_required_count : ℕ
  cat_academic : ℕ
  cat_attendance : ℕ
  cat_engagement : ℕ
  cat_general : ℕ
  type_error : ℕ
  type_warning : ℕ
  type_success : ℕ
  type_info : ℕ
  average_confidence : ℚ
deriving DecidableEq, Repr

/-- Embedding of `get_alert_summary` (alert_generator_agent.py,
lines 334-354). -/
def get_alert_summary (alerts : List GeneratedAlert) : AlertSummary :=
  { total_alerts := alerts.length
    high_priority_count := (alerts.filter (fun a => a.priority = "high")).length
    action_required_count := (alerts.filter (fun a => a.action_required)).length
    cat_academic := (alerts.filter (fun a => a.category = "academic")).length
    cat_attendance := (alerts.filter (fun a => a.category = "attendance")).length
    cat_engagement := (alerts.filter (fun a => a.category = "engagement")).length
    cat_general := (alerts.filter (fun a => a.category = "general")).length
    type_error := (alerts.filter (fun a => a.alert_type = "error")).length
    type_warning := (alerts.filter (fun a => a.alert_type = "warning")).length
    type_success := (alerts.filter (fun a => a.alert_type = "success")).length
    type_info := (alerts.filter (fun a => a.alert_type = "info")).length
    average_confidence :=
      if alerts.isEmpty then 0
      else (alerts.map (fun a => a.confidence_score)).sum / alerts.length }

/-- Outcome of one interaction with the generative backend in
`_generate_ai_alerts` (alert_generator_agent.py, lines 68-155): the API
call may raise, the response may fail JSON parsing, or it parses into a
list of items of which each either validates into a `GeneratedAlert` or
is dropped (`none`). -/
inductive GenOutcome where
  | apiError : GenOutcome
  | jsonError : GenOutcome
  | parsed : List (Option GeneratedAlert) → GenOutcome
deriving DecidableEq

/-- Embedding of `_generate_ai_alerts` (alert_generator_agent.py,
lines 68-155): every failure mode falls back to the rule-based generator;
a parsed list keeps only validating items, and an empty surviving list
also falls back. -/
def generate_ai_alerts (s : StudentAlertInput) (o : GenOutcome) : List GeneratedAlert :=
  match o with
  | .apiError => generate_rule_based_alerts s
  | .jsonError => generate_rule_based_alerts s
  | .parsed items =>
      let alerts := items.filterMap id
      if alerts.isEmpty then generate_rule_based_alerts s else alerts

/-- The outcomes that count as a generative-backend failure: API error,
JSON parse error, or all parsed items failing validation. -/
def genOutcomeFails (o : GenOutcome) : Bool :=
  match o with
  | .apiError => true
  | .jsonError => true
  | .parsed items => (items.filterMap id).isEmpty

/-- Embedding of `AlertGeneratorAgent.generate_alerts`
(alert_generator_agent.py, lines 53-66): `model` is `none` when no API
key is configured (`self.model is None`); otherwise the generative
interaction's outcome is supplied explicitly. -/
def generate_alerts (model : Option GenOutcome) (s : StudentAlertInput) :
    List GeneratedAlert :=
  match model with
  | none => generate_rule_based_alerts s
  | some o => generate_ai_alerts s o

/-- One entry of the `subjects` list of academic data
(gemini_insight_agent.py, lines 357-368 shape). -/
structure SubjectRecord where
  subject : String
  grade : String
  trend : String
  percentage : ℚ
deriving DecidableEq, Repr

/-- Academic data dict shape (`overall_gpa`, `subjects`). -/
structure AcademicData where
  overall_gpa : ℚ
  subjects : List SubjectRecord
deriving DecidableEq, Repr

/-- Attendance data dict shape (`overall_percentage`, `late_days`,
`absent_days`). -/
structure AttendanceData where
  overall_percentage : ℚ
  late_days : ℤ
  absent_days : ℤ
deriving DecidableEq, Repr

/-- Engagement data dict shape (`overall_engagement_score`,
`total_study_hours`, `participation_score`). -/
structure EngagementData where
  overall_engagement_score : ℚ
  total_study_hours : ℚ
  participation_score : ℚ
deriving DecidableEq, Repr

/-- Explicit model of the `random` module draws performed by the three
mock-data generators (gemini_insight_agent.py, lines 357-384): one field
per `random.uniform`/`random.randint` call site. -/
structure RandomSource where
  gpa_draw : ℚ
  attendance_draw : ℚ
  late_draw : ℤ
  absent_draw : ℤ
  engagement_draw : ℚ
  study_hours_draw : ℚ
  participation_draw : ℚ
deriving DecidableEq, Repr

/-- Embedding of `_generate_mock_academic_data`
(gemini_insight_agent.py, lines 357-368): `overall_gpa` is drawn from
`random.uniform(3.0, 3.8)`; the subject list is fixed. -/
def generate_mock_academic_data (r : RandomSource) : AcademicData :=
  { overall_gpa := r.gpa_draw
    subjects :=
      [⟨"Mathematics", "B+", "down", 85⟩,
       ⟨"Science", "A-", "up", 90⟩,
       ⟨"English", "A", "stable", 92⟩,
       ⟨"History", "B", "down", 78⟩,
       ⟨"Geography", "A-", "up", 87⟩] }

/-- Embedding of `_generate_mock_attendance_data`
(gemini_insight_agent.py, lines 370-376). -/
def generate_mock_attendance_data (r : RandomSource) : AttendanceData :=
  { overall_percentage := r.attendance_draw
    late_days := r.late_draw
    absent_days := r.absent_draw }

/-- Embedding of `_generate_mock_engagement_data`
(gemini_insight_agent.py, lines 378-384). -/
def generate_mock_engagement_data (r : RandomSource) : EngagementData :=
  { overall_engagement_score := r.engagement_draw
    total_study_hours := r.study_hours_draw
    participation_score := r.participation_draw }

/-- Result shape of `_analyze_academic_performance`
(gemini_insight_agent.py, lines 157-192). -/
structure AcademicSummary where
  overall_gpa : ℚ
  strong_subjects : List String
  weak_subjects : List String
  improving_subjects : List String
  declining_subjects : List String
  total_subjects : ℕ
deriving DecidableEq, Repr

/-- Embedding of `_analyze_academic_performance`
(gemini_insight_agent.py, lines 157-192): the per-subject loop appends in
list order, so each partition is a `filter`+`map`. -/
def analyze_academic_performance (d : AcademicData) : AcademicSummary :=
  { overall_gpa := d.overall_gpa
    strong_subjects :=
      (d.subjects.filter (fun sub => sub.percentage ≥ 90)).map (fun sub => sub.subject)
    weak_subjects :=
      (d.subjects.filter (fun sub => ¬ sub.percentage ≥ 90 ∧ sub.percentage < 75)).map
        (fun sub => sub.subject)
    improving_subjects :=
      (d.subjects.filter (fun sub => sub.trend = "up")).map (fun sub => sub.subject)
    declining_subjects :=
      (d.subjects.filter (fun sub => sub.trend = "down")).map (fun sub => sub.subject)
    total_subjects := d.subjects.length }

/-- Result shape of `_analyze_attendance_patterns`
(gemini_insight_agent.py, lines 194-209). -/
structure AttendanceSummary where
  overall_rate : ℚ
  late_days : ℤ
  absent_days : ℤ
  attendance_status : String
  punctuality_concern : Bool
deriving DecidableEq, Repr

/-- Embedding of `_analyze_attendance_patterns`
(gemini_insight_agent.py, lines 194-209). -/
def analyze_attendance_patterns (d : AttendanceData) : AttendanceSummary :=
  { overall_rate := d.overall_percentage
    late_days := d.late_days
    absent_days := d.absent_days
    attendance_status :=
      if d.overall_percentage ≥ 95 then "excellent"
      else if d.overall_percentage ≥ 90 then "good"
      else "needs_improvement"
    punctuality_concern := d.late_days > 5 }

/-- Result shape of `_analyze_engagement_metrics`
(gemini_insight_agent.py, lines 211-226). -/
structure EngagementSummary where
  overall_score : ℚ
  study_hours_per_week : ℚ
  participation_score : ℚ
  engagement_level : String
  study_time_adequate : Bool
deriving DecidableEq, Repr

/-- Embedding of `_analyze_engagement_metrics`
(gemini_insight_agent.py, lines 211-226). -/
def analyze_engagement_metrics (d : EngagementData) : EngagementSummary :=
  { overall_score := d.overall_engagement_score
    study_hours_per_week := d.total_study_hours
    participation_score := d.participation_score
    engagement_level :=
      if d.overall_engagement_score ≥ 85 then "high"
      else if d.overall_engagement_score ≥ 70 then "moderate"
      else "low"
    study_time_adequate := d.total_study_hours ≥ 20 }

/-- Result shape of `_identify_trends` (gemini_insight_agent.py,
lines 228-264); a key conditionally absent from the returned dict is an
`Option` field. -/
structure TrendInfo where
  academic_trend : Option String
  attendance_trend : Option String
  engagement_trend : Option String
deriving DecidableEq, Repr

/-- Embedding of `_identify_trends` (gemini_insight_agent.py,
lines 228-264), for data that is present (as it always is after mock
substitution); the `academic_trend` key is still produced only when the
`subjects` list is non-empty. -/
def identify_trends (a : AcademicData) (att : AttendanceData) (e : EngagementData) :
    TrendInfo :=
  { academic_trend :=
      if a.subjects.isEmpty then none
      else
        let declining_count := (a.subjects.filter (fun sub => sub.trend = "down")).length
        let improving_count := (a.subjects.filter (fun sub => sub.trend = "up")).length
        if declining_count > improving_count then some "declining"
        else if improving_count > declining_count then some "improving"
        else some "stable"
    attendance_trend :=
      if att.overall_percentage ≥ 95 then some "excellent"
      else if att.overall_percentage ≥ 90 then some "good"
      else some "concerning"
    engagement_trend :=
      if e.overall_engagement_score ≥ 85 then some "high"
      else if e.overall_engagement_score ≥ 70 then some "moderate"
      else some "low" }

/-- Result shape of `_analyze_student_data` (gemini_insight_agent.py,
lines 145-155). -/
structure StudentAnalysis where
  academic_summary : AcademicSummary
  attendance_summary : AttendanceSummary
  engagement_summary : EngagementSummary
  trends : TrendInfo
deriving DecidableEq, Repr

/-- Embedding of `_analyze_student_data` (gemini_insight_agent.py,
lines 145-155). -/
def analyze_student_data (a : AcademicData) (att : AttendanceData)
    (e : EngagementData) : StudentAnalysis :=
  { academic_summary := analyze_academic_performance a
    attendance_summary := analyze_attendance_patterns att
    engagement_summary := analyze_engagement_metrics e
    trends := identify_trends a att e }

/-- Python `sep.join(parts)`. -/
def pyJoin (sep : String) : List String → String
  | [] => ""
  | [s] => s
  | s :: s' :: rest => s ++ sep ++ pyJoin sep (s' :: rest)

/-- The `insights` list built by `_generate_rule_based_insights`
(gemini_insight_agent.py, lines 266-293): accesses on the analysis dict
(`.get` with defaults) become field projections; the three conditional
sentence appends become list concatenations. -/
def insight_sentences (analysis : StudentAnalysis) : List String :=
  (if analysis.academic_summary.overall_gpa > mkRat 35 10 then
    ["Your child is performing well academically with a strong GPA."]
   else if analysis.academic_summary.declining_subjects ≠ [] then
    ["Academic performance shows some decline in " ++
      pyJoin ", " (analysis.academic_summary.declining_subjects.take 2) ++ "."]
   else []) ++
  (if analysis.attendance_summary.attendance_status = "excellent" then
    ["Excellent attendance record supports consistent learning."]
   else if analysis.attendance_summary.attendance_status = "needs_improvement" then
    ["Attendance could be improved for better academic outcomes."]
   else []) ++
  (if analysis.engagement_summary.engagement_level = "high" then
    ["High engagement levels show active participation in learning."]
   else if analysis.engagement_summary.engagement_level = "low" then
    ["Engagement could be enhanced through more interactive learning approaches."]
   else [])

/-- Embedding of the final line of `_generate_rule_based_insights`:
`" ".join(insights) if insights else "Overall performance is ..."`. -/
def generate_rule_based_insights (analysis : StudentAnalysis) : String :=
  if insight_sentences analysis = [] then
    "Overall performance is within normal ranges with opportunities for growth."
  else pyJoin " " (insight_sentences analysis)

/-- Embedding of `_generate_rule_based_recommendations`
(gemini_insight_agent.py, lines 295-329). -/
def generate_rule_based_recommendations (analysis : StudentAnalysis) : List String :=
  let academic := analysis.academic_summary
  let attendance := analysis.attendance_summary
  let engagement := analysis.engagement_summary
  let recommendations : List String :=
    ((academic.declining_subjects.take 2).map
      (fun subj => "Consider additional tutoring or practice in " ++ subj)) ++
    (if academic.weak_subjects ≠ [] then
      ["Focus on strengthening performance in challenging subjects"]
     else []) ++
    (if attendance.attendance_status = "needs_improvement" then
      ["Establish consistent morning routines to improve attendance"]
     else []) ++
    (if attendance.punctuality_concern then
      ["Work on time management to reduce tardiness"]
     else []) ++
    (if engagement.engagement_level = "low" then
      ["Explore interactive learning methods to boost engagement"]
     else []) ++
    (if ¬ engagement.study_time_adequate then
      ["Increase dedicated study time to meet grade-level expectations"]
     else []) ++
    ["Maintain regular communication with teachers",
     "Celebrate achievements to maintain motivation"]
  recommendations.take 5

/-- One configured Gemini model handle for the insight agent: the raw
results of its two `generate_content` calls. `none` models a raised API
error; for recommendations a successful response is abstracted as the
list its numbered-list parse yields (gemini_insight_agent.py,
lines 107-143). -/
structure GeminiModel where
  insight_response : Option String
  recommendations_response : Option (List String)
deriving DecidableEq, Repr

/-- Embedding of `_generate_gemini_insights` (gemini_insight_agent.py,
lines 77-105): an API error is caught and answered with the rule-based
insights. -/
def generate_gemini_insights (m : GeminiModel) (analysis : StudentAnalysis) : String :=
  match m.insight_response with
  | some text => text
  | none => generate_rule_based_insights analysis

/-- Embedding of `_generate_gemini_recommendations`
(gemini_insight_agent.py, lines 107-143): a parsed response is truncated
to 5 items; an API error is caught and answered with the rule-based
recommendations. -/
def generate_gemini_recommendations (m : GeminiModel) (analysis : StudentAnalysis) :
    List String :=
  match m.recommendations_response with
  | some recs => recs.take 5
  | none => generate_rule_based_recommendations analysis

/-- Embedding of `InsightResponse` (models/insight.py shape as used in
gemini_insight_agent.py, lines 65-71); `generated_at` omitted. -/
structure InsightResponse where
  insight : String
  recommendations : List String
  confidence : ℚ
  data_used : List String
deriving DecidableEq, Repr

/-- Embedding of `GeminiInsightAgent.generate_insight`
(gemini_insight_agent.py, lines 32-75): any falsy (absent) data argument
is replaced by freshly drawn mock data (lines 44-49); the analysis is
then computed, and either the Gemini path (model configured, confidence
0.85) or the rule-based path (no model, confidence 0.75) fills the
response. The enclosing `try`/`except` only guards runtime errors none of
the embedded operations can raise. -/
def generate_insight (model : Option GeminiModel) (r : RandomSource)
    (academic_data : Option AcademicData) (attendance_data : Option AttendanceData)
    (engagement_data : Option EngagementData) : InsightResponse :=
  let academic := academic_data.getD (generate_mock_academic_data r)
  let attendance := attendance_data.getD (generate_mock_attendance_data r)
  let engagement := engagement_data.getD (generate_mock_engagement_data r)
  let analysis := analyze_student_data academic attendance engagement
  match model with
  | some m =>
      { insight := generate_gemini_insights m analysis
        recommendations := generate_gemini_recommendations m analysis
        confidence := mkRat 85 100
        data_used := ["academic_performance", "attendance_records", "engagement_metrics"] }
  | none =>
      { insight := generate_rule_based_insights analysis
        recommendations := generate_rule_based_recommendations analysis
        confidence := mkRat 75 100
        data_used := ["academic_performance", "attendance_records", "engagement_metrics"] }

/-- The `attendance_rate` extraction of `_find_correlations`
(insight_agent.py, line 301): `x.get("overall_percentage", 0) if x else 0`. -/
def corr_attendance_rate (attendance_data : Option AttendanceData) : ℚ :=
  match attendance_data with
  | some d => d.overall_percentage
  | none => 0

/-- The `academic_gpa` extraction of `_find_correlations`
(insight_agent.py, line 302). -/
def corr_academic_gpa (academic_data : Option AcademicData) : ℚ :=
  match academic_data with
  | some d => d.overall_gpa
  | none => 0

/-- The `engagement_score` extraction of `_find_correlations`
(insight_agent.py, line 303). -/
def corr_engagement_score (engagement_data : Option EngagementData) : ℚ :=
  match engagement_data with
  | some d => d.overall_engagement_score
  | none => 0

/-- Result shape of `_find_correlations` (insight_agent.py,
lines 296-315): the two conditionally-present dict keys. -/
structure Correlations where
  attendance_academic : Option String
  engagement_academic : Option String
deriving DecidableEq, Repr

/-- Embedding of `InsightAgent._find_correlations` (insight_agent.py,
lines 296-315). -/
def find_correlations (academic_data : Option AcademicData)
    (attendance_data : Option AttendanceData)
    (engagement_data : Option EngagementData) : Correlations :=
  let attendance_rate := corr_attendance_rate attendance_data
  let academic_gpa := corr_academic_gpa academic_data
  let engagement_score := corr_engagement_score engagement_data
  { attendance_academic :=
      if attendance_rate > 95 ∧ academic_gpa > mkRat 35 10 then
        some "Strong positive correlation between attendance and academic performance"
      else if attendance_rate < 85 ∧ academic_gpa < 3 then
        some "Low attendance may be impacting academic performance"
      else none
    engagement_academic :=
      if engagement_score > 85 ∧ academic_gpa > mkRat 35 10 then
        some "High engagement correlates with strong academic performance"
      else none }

/-- The projections of `state.analysis_results` read by
`InsightAgent._rule_based_insights` (insight_agent.py, lines 208-234):
`academic_trends.overall_gpa`, `attendance_patterns.overall_rate`,
`engagement_insights.overall_score`, each defaulting to 0 when absent. -/
structure AnalysisResultsView where
  overall_gpa : ℚ
  overall_rate : ℚ
  overall_score : ℚ
deriving DecidableEq, Repr

/-- The `insights` list built by `InsightAgent._rule_based_insights`
(insight_agent.py, lines 208-234). -/
def agent_insight_sentences (a : AnalysisResultsView) : List String :=
  (if a.overall_gpa > mkRat 35 10 then
    ["Your child is performing well academically with a strong GPA."]
   else if a.overall_gpa < 3 then
    ["Academic performance may need attention. Consider additional support."]
   else []) ++
  (if a.overall_rate > 95 then
    ["Excellent attendance record! Consistency is key to academic success."]
   else if a.overall_rate < 90 then
    ["Attendance has room for improvement. Regular attendance is crucial for learning."]
   else []) ++
  (if a.overall_score > 85 then
    ["High engagement levels show your child is actively participating in learning."]
   else if a.overall_score < 70 then
    ["Engagement could be improved. Consider discussing learning preferences with your child."]
   else [])

/-- Embedding of the final line of `InsightAgent._rule_based_insights`. -/
def rule_based_insights (a : AnalysisResultsView) : String :=
  if agent_insight_sentences a = [] then "Overall performance is within normal ranges."
  else pyJoin " " (agent_insight_sentences a)

section Helpers

lemma option_toList_countP_le_one (o : Option GeneratedAlert) (p : GeneratedAlert → Bool) :
    o.toList.countP p ≤ 1 := by
  cases o with
  | none => simp
  | some a =>
      simp only [Option.toList_some, List.countP_cons, List.countP_nil, Nat.zero_add]
      split <;> simp

lemma string_ne_empty_of_length_pos (s : String) (h : 0 < s.length) : s ≠ "" := by
  intro he
  rw [he] at h
  exact absurd h (by decide)

lemma pyJoin_head_length_le (sep x : String) (l : List String) :
    x.length ≤ (pyJoin sep (x :: l)).length := by
  cases l with
  | nil => simp [pyJoin]
  | cons y t =>
      simp only [pyJoin, String.length_append]
      omega

lemma ite_join_ne_empty (l : List String) (d : String) (hd : 0 < d.length)
    (hl : ∀ x ∈ l, 0 < x.length) :
    (if l = [] then d else pyJoin " " l) ≠ "" := by
  split
  · exact string_ne_empty_of_length_pos d hd
  · rename_i hne
    obtain ⟨x, t, rfl⟩ := List.exists_cons_of_ne_nil hne
    have hx : 0 < x.length := hl x (List.mem_cons_self x t)
    exact string_ne_empty_of_length_pos _
      (lt_of_lt_of_le hx (pyJoin_head_length_le " " x t))

end Helpers

lemma attendance_branch_cat_academic (s : StudentAlertInput) :
    (attendance_branch s).toList.countP (fun a => a.category == "academic") = 0 := by
  unfold attendance_branch
  split_ifs <;> rfl

lemma attendance_branch_cat_engagement (s : StudentAlertInput) :
    (attendance_branch s).toList.countP (fun a => a.category == "engagement") = 0 := by
  unfold attendance_branch
  split_ifs <;> rfl

lemma attendance_branch_cat_general (s : StudentAlertInput) :
    (attendance_branch s).toList.countP (fun a => a.category == "general") = 0 := by
  unfold attendance_branch
  split_ifs <;> rfl

lemma academic_branch_cat_attendance (s : StudentAlertInput) :
    (academic_branch s).toList.countP (fun a => a.category == "attendance") = 0 := by
  unfold academic_branch
  split_ifs <;> rfl

lemma academic_branch_cat_engagement (s : StudentAlertInput) :
    (academic_branch s).toList.countP (fun a => a.category == "engagement") = 0 := by
  unfold academic_branch
  split_ifs <;> rfl

lemma academic_branch_cat_general (s : StudentAlertInput) :
    (academic_branch s).toList.countP (fun a => a.category == "general") = 0 := by
  unfold academic_branch
  split_ifs <;> rfl

lemma participation_branch_cat_attendance (s : StudentAlertInput) :
    (participation_branch s).toList.countP (fun a => a.category == "attendance") = 0 := by
  unfold participation_branch
  split_ifs <;> rfl

lemma participation_branch_cat_academic (s : StudentAlertInput) :
    (participation_branch s).toList.countP (fun a => a.category == "academic") = 0 := by
  unfold participation_branch
  split_ifs <;> rfl

lemma participation_branch_cat_general (s : StudentAlertInput) :
    (participation_branch s).toList.countP (fun a => a.category == "general") = 0 := by
  unfold participation_branch
  split_ifs <;> rfl

lemma behavior_branch_cat_attendance (s : StudentAlertInput) :
    (behavior_branch s).toList.countP (fun a => a.category == "attendance") = 0 := by
  unfold behavior_branch
  split_ifs <;> rfl

lemma behavior_branch_cat_academic (s : StudentAlertInput) :
    (behavior_branch s).toList.countP (fun a => a.category == "academic") = 0 := by
  unfold behavior_branch
  split_ifs <;> rfl

lemma behavior_branch_cat_engagement (s : StudentAlertInput) :
    (behavior_branch s).toList.countP (fun a => a.category == "engagement") = 0 := by
  unfold behavior_branch
  split_ifs <;> rfl

lemma academic_branch_cat_academic_eq_one (s : StudentAlertInput) :
    (academic_branch s).toList.countP (fun a => a.category == "academic") = 1 := by
  unfold academic_branch
  split_ifs with h1 h2 h3
  · rfl
  · rfl
  · rfl
  · exfalso
    push_neg at h1 h2 h3
    rw [Rat.mkRat_eq_div] at h3
    linarith [h2.2, h3.1]

/-- Claim C4: for every `StudentAlertInput`, each domain (attendance,
academic, participation/engagement, behavior/general) contributes at most
one alert to the rule-based generator's output — never two alerts from
the same domain. Domains are identified by the category their branch
stamps on its alerts. -/
theorem each_domain_at_most_one_alert (s : StudentAlertInput) :
    (generate_rule_based_alerts s).countP (fun a => a.category == "attendance") ≤ 1 ∧
    (generate_rule_based_alerts s).countP (fun a => a.category == "academic") ≤ 1 ∧
    (generate_rule_based_alerts s).countP (fun a => a.category == "engagement") ≤ 1 ∧
    (generate_rule_based_alerts s).countP (fun a => a.category == "general") ≤ 1 := by
  unfold generate_rule_based_alerts
  simp only [List.countP_append]
  refine ⟨?_, ?_, ?_, ?_⟩
  · rw [academic_branch_cat_attendance, participation_branch_cat_attendance,
      behavior_branch_cat_attendance]
    have := option_toList_countP_le_one (attendance_branch s)
      (fun a => a.category == "attendance")
    omega
  · rw [attendance_branch_cat_academic, participation_branch_cat_academic,
      behavior_branch_cat_academic]
    have := option_toList_countP_le_one (academic_branch s)
      (fun a => a.category == "academic")
    omega
  · rw [attendance_branch_cat_engagement, academic_branch_cat_engagement,
      behavior_branch_cat_engagement]
    have := option_toList_countP_le_one (participation_branch s)
      (fun a => a.category == "engagement")
    omega
  · rw [attendance_branch_cat_general, academic_branch_cat_general,
      participation_branch_cat_general]
    have := option_toList_countP_le_one (behavior_branch s)
      (fun a => a.category == "general")
    omega

/-- Claim C10: for every input, the academic domain contributes exactly one
alert (the bands `<2.0 or <50`, then `<3.0 or <70`, then `≥3.5 or ≥85`
leave no gap, since any value `≥ 70` is `≥ 3.5`), so the rule-based alert
list is never empty. -/
theorem rule_based_alerts_never_empty (s : StudentAlertInput) :
    (generate_rule_based_alerts s).countP (fun a => a.category == "academic") = 1 ∧
    generate_rule_based_alerts s ≠ [] := by
  have hcount : (generate_rule_based_alerts s).countP
      (fun a => a.category == "academic") = 1 := by
    unfold generate_rule_based_alerts
    simp only [List.countP_append]
    rw [attendance_branch_cat_academic, participation_branch_cat_academic,
      behavior_branch_cat_academic, academic_branch_cat_academic_eq_one]
  refine ⟨hcount, ?_⟩
  intro he
  rw [he] at hcount
  simp at hcount

/-- Claim C5: for every alert list, the derived summary counts every field
correctly — `total_alerts` is the length, `high_priority_count` counts
priority-high alerts, `action_required_count` counts `action_required`
alerts, each per-category and per-type field counts its category/type, and
`average_confidence` is the mean confidence (0 on the empty list). -/
theorem alert_summary_correct (alerts : List GeneratedAlert) :
    (get_alert_summary alerts).total_alerts = alerts.length ∧
    (get_alert_summary alerts).high_priority_count =
      alerts.countP (fun a => decide (a.priority = "high")) ∧
    (get_alert_summary alerts).action_required_count =
      alerts.countP (fun a => a.action_required) ∧
    (get_alert_summary alerts).cat_academic =
      alerts.countP (fun a => decide (a.category = "academic")) ∧
    (get_alert_summary alerts).cat_attendance =
      alerts.countP (fun a => decide (a.category = "attendance")) ∧
    (get_alert_summary alerts).cat_engagement =
      alerts.countP (fun a => decide (a.category = "engagement")) ∧
    (get_alert_summary alerts).cat_general =
      alerts.countP (fun a => decide (a.category = "general")) ∧
    (get_alert_summary alerts).type_error =
      alerts.countP (fun a => decide (a.alert_type = "error")) ∧
    (get_alert_summary alerts).type_warning =
      alerts.countP (fun a => decide (a.alert_type = "warning")) ∧
    (get_alert_summary alerts).type_success =
      alerts.countP (fun a => decide (a.alert_type = "success")) ∧
    (get_alert_summary alerts).type_info =
      alerts.countP (fun a => decide (a.alert_type = "info")) ∧
    (get_alert_summary alerts).average_confidence =
      (if alerts = [] then 0
       else (alerts.map (fun a => a.confidence_score)).sum / alerts.length) := by
  unfold get_alert_summary
  refine ⟨rfl, ?_, ?_, ?_, ?_, ?_, ?_, ?_, ?_, ?_, ?_, ?_⟩ <;>
    simp [List.countP_eq_length_filter, List.isEmpty_iff]

/-- The mid-band scenario input of claim C1: `attendance=90`,
`academic=75`, `participation="medium"`, `behaviorNotes=""`. -/
def c1_input : StudentAlertInput :=
  { name := "Student"
    roll_number := "R1"
    attendance_percentage := 90
    academic_performance := 75
    behavior_notes := ""
    participation_level := "medium"
    additional_comments := "" }

/-- Claim C1 counterexample: on the mid-band scenario input the rule-based
generator does NOT return an empty alert list — it returns exactly one
alert, and the derived summary is not all-zeros (`total_alerts = 1`),
because `academic_performance = 75` satisfies the success band
`≥ 3.5 or ≥ 85`. -/
theorem c1_scenario_not_zero_alerts :
    generate_rule_based_alerts c1_input ≠ [] ∧
    (generate_rule_based_alerts c1_input).length = 1 ∧
    (get_alert_summary (generate_rule_based_alerts c1_input)).total_alerts = 1 := by
  refine ⟨?_, rfl, rfl⟩
  decide

/-- Claim C1 amended: on the mid-band scenario input the rule-based
generator returns exactly one alert — the low-priority academic success
alert (`action_required = false`, confidence 0.88) — and the derived
summary records one total alert, one academic alert, one success alert,
zero high-priority and action-required alerts, and mean confidence 0.88. -/
theorem c1_scenario_amended :
    (generate_rule_based_alerts c1_input).map
        (fun a => (a.category, a.alert_type, a.priority, a.action_required,
          a.confidence_score)) =
      [("academic", "success", "low", false, mkRat 88 100)] ∧
    (get_alert_summary (generate_rule_based_alerts c1_input)).total_alerts = 1 ∧
    (get_alert_summary (generate_rule_based_alerts c1_input)).high_priority_count = 0 ∧
    (get_alert_summary (generate_rule_based_alerts c1_input)).action_required_count = 0 ∧
    (get_alert_summary (generate_rule_based_alerts c1_input)).cat_academic = 1 ∧
    (get_alert_summary (generate_rule_based_alerts c1_input)).cat_attendance = 0 ∧
    (get_alert_summary (generate_rule_based_alerts c1_input)).cat_engagement = 0 ∧
    (get_alert_summary (generate_rule_based_alerts c1_input)).cat_general = 0 ∧
    (get_alert_summary (generate_rule_based_alerts c1_input)).type_error = 0 ∧
    (get_alert_summary (generate_rule_based_alerts c1_input)).type_warning = 0 ∧
    (get_alert_summary (generate_rule_based_alerts c1_input)).type_success = 1 ∧
    (get_alert_summary (generate_rule_based_alerts c1_input)).type_info = 0 ∧
    (get_alert_summary (generate_rule_based_alerts c1_input)).average_confidence =
      mkRat 88 100 := by
  have hmap : (generate_rule_based_alerts c1_input).map
      (fun a => a.confidence_score) = [mkRat 88 100] := by decide
  have hempty : (generate_rule_based_alerts c1_input).isEmpty = false := by decide
  have hlen : (generate_rule_based_alerts c1_input).length = 1 := by decide
  refine ⟨by decide, by decide, by decide, by decide, by decide, by decide, by decide,
    by decide, by decide, by decide, by decide, by decide, ?_⟩
  show (get_alert_summary (generate_rule_based_alerts c1_input)).average_confidence =
    mkRat 88 100
  unfold get_alert_summary
  rw [hempty, hmap, hlen]
  norm_num

/-- Claim C2: for every input, the academic branch fires a high-priority
error when `academic_performance < 2.0 or < 50`, a medium-priority warning
when it lies in `[2.0, 3.0) or [50, 70)`, a low-priority success when it
is `≥ 3.5 or ≥ 85`, and nothing otherwise — bands evaluated in that order
with at most the first match firing. -/
theorem academic_bands_first_match (s : StudentAlertInput) :
    (academic_branch s).map (fun a => (a.alert_type, a.priority)) =
      (if s.academic_performance < 2 ∨ s.academic_performance < 50 then
        some ("error", "high")
       else if (2 ≤ s.academic_performance ∧ s.academic_performance < 3) ∨
           (50 ≤ s.academic_performance ∧ s.academic_performance < 70) then
        some ("warning", "medium")
       else if s.academic_performance ≥ mkRat 35 10 ∨ s.academic_performance ≥ 85 then
        some ("success", "low")
       else none) := by
  by_cases h50 : s.academic_performance < 50
  · have hc1 : s.academic_performance < 2 ∨ s.academic_performance < 50 := Or.inr h50
    simp only [academic_branch]
    rw [if_pos hc1, if_pos hc1]
    rfl
  · by_cases h70 : s.academic_performance < 70
    · have h2 : ¬ s.academic_performance < 2 := fun hlt => h50 (by linarith)
      have hc1 : ¬ (s.academic_performance < 2 ∨ s.academic_performance < 50) :=
        fun h => h.elim h2 h50
      have hc2 : s.academic_performance < 3 ∨ s.academic_performance < 70 := Or.inr h70
      have hd2 : (2 ≤ s.academic_performance ∧ s.academic_performance < 3) ∨
          (50 ≤ s.academic_performance ∧ s.academic_performance < 70) :=
        Or.inr ⟨le_of_not_lt h50, h70⟩
      simp only [academic_branch]
      rw [if_neg hc1, if_neg hc1, if_pos hc2, if_pos hd2]
      rfl
    · have h2 : ¬ s.academic_performance < 2 := fun hlt => h50 (by linarith)
      have hc1 : ¬ (s.academic_performance < 2 ∨ s.academic_performance < 50) :=
        fun h => h.elim h2 h50
      have h3 : ¬ s.academic_performance < 3 := fun hlt => h50 (by linarith)
      have hc2 : ¬ (s.academic_performance < 3 ∨ s.academic_performance < 70) :=
        fun h => h.elim h3 h70
      have hd2 : ¬ ((2 ≤ s.academic_performance ∧ s.academic_performance < 3) ∨
          (50 ≤ s.academic_performance ∧ s.academic_performance < 70)) :=
        fun h => h.elim (fun hh => h3 hh.2) (fun hh => h70 hh.2)
      have hc3 : s.academic_performance ≥ mkRat 35 10 ∨ s.academic_performance ≥ 85 :=
        Or.inl (by rw [Rat.mkRat_eq_div]; push_neg at h70; linarith)
      simp only [academic_branch]
      rw [if_neg hc1, if_neg hc1, if_neg hc2, if_neg hd2, if_pos hc3, if_pos hc3]
      rfl

/-- Claim C6: the behavior branch fires only when the notes are longer
than 10 characters; then a negative-keyword match yields the high-priority
warning, otherwise a positive-keyword match yields the low-priority
success (so negative takes precedence when both match), and neither match
yields no alert. -/
theorem behavior_keyword_bands (s : StudentAlertInput) :
    (s.behavior_notes.length ≤ 10 → behavior_branch s = none) ∧
    (10 < s.behavior_notes.length → negKeywordMatch s.behavior_notes = true →
      (behavior_branch s).map (fun a => (a.alert_type, a.priority, a.category)) =
        some ("warning", "high", "general")) ∧
    (10 < s.behavior_notes.length → negKeywordMatch s.behavior_notes = false →
      posKeywordMatch s.behavior_notes = true →
      (behavior_branch s).map (fun a => (a.alert_type, a.priority, a.category)) =
        some ("success", "low", "general")) ∧
    (10 < s.behavior_notes.length → negKeywordMatch s.behavior_notes = false →
      posKeywordMatch s.behavior_notes = false → behavior_branch s = none) := by
  have hne : 10 < s.behavior_notes.length → s.behavior_notes ≠ "" := by
    intro h10 he
    rw [he] at h10
    exact absurd h10 (by decide)
  refine ⟨?_, ?_, ?_, ?_⟩
  · intro h
    unfold behavior_branch
    rw [if_neg]
    rintro ⟨-, h10⟩
    omega
  · intro h10 hneg
    unfold behavior_branch
    rw [if_pos ⟨hne h10, h10⟩, if_pos hneg]
    rfl
  · intro h10 hneg hpos
    unfold behavior_branch
    rw [if_pos ⟨hne h10, h10⟩, if_neg (by simp [hneg]), if_pos hpos]
    rfl
  · intro h10 hneg hpos
    unfold behavior_branch
    rw [if_pos ⟨hne h10, h10⟩, if_neg (by simp [hneg]), if_neg (by simp [hpos])]

/-- A concrete input exercising the negative-keyword band of the behavior
branch. -/
def c6_witness_input : StudentAlertInput :=
  { name := "Student"
    roll_number := "R2"
    attendance_percentage := 90
    academic_performance := 75
    behavior_notes := "Repeatedly disruptive in class"
    participation_level := "medium"
    additional_comments := "" }

/-- Witness for `behavior_keyword_bands` at a concrete input whose notes
are longer than 10 characters and contain the keyword `disruptive`. -/
theorem behavior_keyword_bands_witness :
    (behavior_branch c6_witness_input).map
        (fun a => (a.alert_type, a.priority, a.category)) =
      some ("warning", "high", "general") :=
  (behavior_keyword_bands c6_witness_input).2.1 (by decide) (by decide)

/-- Claim C3: with the generative backend unconfigured (`model = none`),
`generate_alerts` returns exactly the rule-based alerts and
`generate_insight` returns exactly the rule-based insight and
recommendations; and any generative-backend failure (API error, JSON
parse error, or all parsed items failing validation) likewise yields the
rule-based output instead of an error. -/
theorem fallback_guarantee (s : StudentAlertInput) (o : GenOutcome)
    (ho : genOutcomeFails o = true) (m : GeminiModel)
    (hmi : m.insight_response = none) (hmr : m.recommendations_response = none)
    (r : RandomSource) (a : Option AcademicData) (att : Option AttendanceData)
    (e : Option EngagementData) :
    generate_alerts none s = generate_rule_based_alerts s ∧
    generate_alerts (some o) s = generate_rule_based_alerts s ∧
    (generate_insight none r a att e).insight =
      generate_rule_based_insights
        (analyze_student_data (a.getD (generate_mock_academic_data r))
          (att.getD (generate_mock_attendance_data r))
          (e.getD (generate_mock_engagement_data r))) ∧
    (generate_insight none r a att e).recommendations =
      generate_rule_based_recommendations
        (analyze_student_data (a.getD (generate_mock_academic_data r))
          (att.getD (generate_mock_attendance_data r))
          (e.getD (generate_mock_engagement_data r))) ∧
    (generate_insight (some m) r a att e).insight =
      generate_rule_based_insights
        (analyze_student_data (a.getD (generate_mock_academic_data r))
          (att.getD (generate_mock_attendance_data r))
          (e.getD (generate_mock_engagement_data r))) ∧
    (generate_insight (some m) r a att e).recommendations =
      generate_rule_based_recommendations
        (analyze_student_data (a.getD (generate_mock_academic_data r))
          (att.getD (generate_mock_attendance_data r))
          (e.getD (generate_mock_engagement_data r))) := by
  refine ⟨rfl, ?_, rfl, rfl, ?_, ?_⟩
  · cases o with
    | apiError => rfl
    | jsonError => rfl
    | parsed items =>
        have hemp : (items.filterMap id).isEmpty = true := ho
        simp only [generate_alerts, generate_ai_alerts]
        rw [if_pos hemp]
  · simp [generate_insight, generate_gemini_insights, hmi]
  · simp [generate_insight, generate_gemini_recommendations, hmr]

/-- A concrete student input for exercising the fallback path. -/
def c3_witness_student : StudentAlertInput :=
  { name := "Student"
    roll_number := "R3"
    attendance_percentage := 80
    academic_performance := 60
    behavior_notes := ""
    participation_level := "low"
    additional_comments := "" }

/-- A concrete random source. -/
def c3_witness_rng : RandomSource :=
  { gpa_draw := 3
    attendance_draw := 90
    late_draw := 4
    absent_draw := 5
    engagement_draw := 80
    study_hours_draw := 20
    participation_draw := 85 }

/-- Witness for `fallback_guarantee`: a generative response whose items all
fail validation makes `generate_alerts` return the rule-based alerts. -/
theorem fallback_guarantee_witness :
    generate_alerts (some (GenOutcome.parsed [none, none])) c3_witness_student =
      generate_rule_based_alerts c3_witness_student :=
  (fallback_guarantee c3_witness_student (GenOutcome.parsed [none, none]) rfl
    { insight_response := none, recommendations_response := none } rfl rfl
    c3_witness_rng none none none).2.1

/-- The boundary academic data of claim C7 (`gpa = 3.6 > 3.5`). -/
def c7_academic : AcademicData :=
  { overall_gpa := mkRat 36 10, subjects := [] }

/-- The boundary attendance data of claim C7 (`attendance = 95`). -/
def c7_attendance : AttendanceData :=
  { overall_percentage := 95, late_days := 0, absent_days := 0 }

/-- The boundary engagement data of claim C7 (`engagement = 85`). -/
def c7_engagement : EngagementData :=
  { overall_engagement_score := 85, total_study_hours := 0, participation_score := 0 }

/-- Claim C7 counterexample: at the boundary values `attendance = 95` and
`engagement = 85` (with `gpa = 3.6 > 3.5`), `_find_correlations` emits NO
positive note — the source compares with strict `> 95` and `> 85`, not the
`≥` the claim asserts. -/
theorem correlation_boundary_counterexample :
    (find_correlations (some c7_academic) (some c7_attendance)
        (some c7_engagement)).attendance_academic = none ∧
    (find_correlations (some c7_academic) (some c7_attendance)
        (some c7_engagement)).engagement_academic = none := by
  constructor <;> decide

/-- Claim C7 amended: the positive-correlation note fires exactly when
`attendance > 95 and gpa > 3.5` (strict), the risk note exactly when
`attendance < 85 and gpa < 3.0`, the engagement note exactly when
`engagement > 85 and gpa > 3.5` (strict), and no note otherwise; boundary
values `attendance = 95` / `engagement = 85` do NOT fire. -/
theorem correlation_conditions (a : Option AcademicData)
    (att : Option AttendanceData) (e : Option EngagementData) :
    ((find_correlations a att e).attendance_academic =
        some "Strong positive correlation between attendance and academic performance" ↔
      corr_attendance_rate att > 95 ∧ corr_academic_gpa a > mkRat 35 10) ∧
    ((find_correlations a att e).attendance_academic =
        some "Low attendance may be impacting academic performance" ↔
      corr_attendance_rate att < 85 ∧ corr_academic_gpa a < 3) ∧
    ((find_correlations a att e).attendance_academic = none ↔
      ¬ (corr_attendance_rate att > 95 ∧ corr_academic_gpa a > mkRat 35 10) ∧
      ¬ (corr_attendance_rate att < 85 ∧ corr_academic_gpa a < 3)) ∧
    ((find_correlations a att e).engagement_academic =
        some "High engagement correlates with strong academic performance" ↔
      corr_engagement_score e > 85 ∧ corr_academic_gpa a > mkRat 35 10) ∧
    ((find_correlations a att e).engagement_academic = none ↔
      ¬ (corr_engagement_score e > 85 ∧ corr_academic_gpa a > mkRat 35 10)) := by
  constructor
  · simp only [find_correlations]
    split_ifs with h1 h2
    · simp [h1]
    · constructor
      · intro h
        exact absurd (Option.some.inj h) (by decide)
      · intro hc
        exact absurd hc h1
    · simp [h1]
  constructor
  · simp only [find_correlations]
    split_ifs with h1 h2
    · constructor
      · intro h
        exact absurd (Option.some.inj h) (by decide)
      · rintro ⟨hr, -⟩
        exfalso
        linarith [h1.1]
    · simp [h2]
    · simp [h2]
  constructor
  · simp only [find_correlations]
    split_ifs with h1 h2
    · simp [h1]
    · simp [h2]
    · simp [h1, h2]
  constructor
  · simp only [find_correlations]
    split_ifs with h3
    · simp [h3]
    · simp [h3]
  · simp only [find_correlations]
    split_ifs with h3
    · simp [h3]
    · simp [h3]

/-- A random source whose mock GPA draw is 3.0. -/
def c9_rng_low : RandomSource :=
  { gpa_draw := 3
    attendance_draw := 90
    late_draw := 4
    absent_draw := 5
    engagement_draw := 80
    study_hours_draw := 20
    participation_draw := 85 }

/-- The same random source except the mock GPA draw is 3.8. -/
def c9_rng_high : RandomSource :=
  { gpa_draw := mkRat 38 10
    attendance_draw := 90
    late_draw := 4
    absent_draw := 5
    engagement_draw := 80
    study_hours_draw := 20
    participation_draw := 85 }

/-- Claim C9 counterexample: with all three data inputs absent,
`generate_insight` substitutes randomly drawn mock data, so two runs on
identical (absent) inputs differ when the random draws differ — the
result is not a function of the supplied inputs alone. -/
theorem insight_depends_on_random_draws :
    (generate_insight none c9_rng_low none none none).insight ≠
      (generate_insight none c9_rng_high none none none).insight := by
  decide

/-- Claim C9 amended: when all three data inputs are provided,
`generate_insight` never consults the random source — two runs with any
two random sources produce identical results; only absent inputs are
replaced by random mock data. -/
theorem insight_deterministic_on_provided_data (model : Option GeminiModel)
    (r r' : RandomSource) (a : AcademicData) (att : AttendanceData)
    (e : EngagementData) :
    generate_insight model r (some a) (some att) (some e) =
      generate_insight model r' (some a) (some att) (some e) := by
  cases model <;> rfl

lemma insight_sentences_length_pos (analysis : StudentAnalysis) :
    ∀ x ∈ insight_sentences analysis, 0 < x.length := by
  intro x hx
  simp only [insight_sentences, List.mem_append] at hx
  rcases hx with (hx | hx) | hx
  · split at hx
    · simp at hx
      subst hx
      decide
    · split at hx
      · simp at hx
        subst hx
        rw [String.length_append, String.length_append]
        have hpos : 0 < ("Academic performance shows some decline in ").length := by decide
        omega
      · simp at hx
  · split at hx
    · simp at hx
      subst hx
      decide
    · split at hx
      · simp at hx
        subst hx
        decide
      · simp at hx
  · split at hx
    · simp at hx
      subst hx
      decide
    · split at hx
      · simp at hx
        subst hx
        decide
      · simp at hx

lemma agent_insight_sentences_length_pos (a : AnalysisResultsView) :
    ∀ x ∈ agent_insight_sentences a, 0 < x.length := by
  intro x hx
  simp only [agent_insight_sentences, List.mem_append] at hx
  rcases hx with (hx | hx) | hx <;>
    (split at hx
     · simp at hx
       subst hx
       decide
     · split at hx
       · simp at hx
         subst hx
         decide
       · simp at hx)

/-- Claim C8: both rule-based insight narratives are never the empty
string; when no domain contributes a notable sentence, the single default
"within normal ranges" sentence is returned. -/
theorem insight_narrative_never_empty (analysis : StudentAnalysis)
    (a : AnalysisResultsView) :
    generate_rule_based_insights analysis ≠ "" ∧
    (¬ analysis.academic_summary.overall_gpa > mkRat 35 10 →
      analysis.academic_summary.declining_subjects = [] →
      analysis.attendance_summary.attendance_status ≠ "excellent" →
      analysis.attendance_summary.attendance_status ≠ "needs_improvement" →
      analysis.engagement_summary.engagement_level ≠ "high" →
      analysis.engagement_summary.engagement_level ≠ "low" →
      generate_rule_based_insights analysis =
        "Overall performance is within normal ranges with opportunities for growth.") ∧
    rule_based_insights a ≠ "" ∧
    (¬ a.overall_gpa > mkRat 35 10 → ¬ a.overall_gpa < 3 →
      ¬ a.overall_rate > 95 → ¬ a.overall_rate < 90 →
      ¬ a.overall_score > 85 → ¬ a.overall_score < 70 →
      rule_based_insights a = "Overall performance is within normal ranges.") := by
  refine ⟨?_, ?_, ?_, ?_⟩
  · unfold generate_rule_based_insights
    exact ite_join_ne_empty _ _ (by decide) (insight_sentences_length_pos analysis)
  · intro h1 h2 h3 h4 h5 h6
    unfold generate_rule_based_insights insight_sentences
    simp [h1, h2, h3, h4, h5, h6]
  · unfold rule_based_insights
    exact ite_join_ne_empty _ _ (by decide) (agent_insight_sentences_length_pos a)
  · intro h1 h2 h3 h4 h5 h6
    unfold rule_based_insights agent_insight_sentences
    simp [h1, h2, h3, h4, h5, h6]

/-- An all-neutral gemini-agent analysis: mid GPA, no declining subjects,
"good" attendance status, "moderate" engagement level. -/
def c8_neutral_analysis : StudentAnalysis :=
  { academic_summary :=
      { overall_gpa := 3
        strong_subjects := []
        weak_subjects := []
        improving_subjects := []
        declining_subjects := []
        total_subjects := 0 }
    attendance_summary :=
      { overall_rate := 92
        late_days := 0
        absent_days := 0
        attendance_status := "good"
        punctuality_concern := false }
    engagement_summary :=
      { overall_score := 80
        study_hours_per_week := 20
        participation_score := 80
        engagement_level := "moderate"
        study_time_adequate := true }
    trends :=
      { academic_trend := none
        attendance_trend := some "good"
        engagement_trend := some "moderate" } }

/-- An all-neutral analysis view for the second agent. -/
def c8_neutral_view : AnalysisResultsView :=
  { overall_gpa := 3
    overall_rate := 92
    overall_score := 80 }

/-- Witness for `insight_narrative_never_empty`: on all-neutral metrics
both narratives equal the default "within normal ranges" sentence. -/
theorem insight_narrative_never_empty_witness :
    generate_rule_based_insights c8_neutral_analysis =
      "Overall performance is within normal ranges with opportunities for growth." ∧
    rule_based_insights c8_neutral_view =
      "Overall performance is within normal ranges." :=
  ⟨(insight_narrative_never_empty c8_neutral_analysis c8_neutral_view).2.1
      (by decide) rfl (by decide) (by decide) (by decide) (by decide),
   (insight_narrative_never_empty c8_neutral_analysis c8_neutral_view).2.2.2
      (by decide) (by decide) (by decide) (by decide) (by decide) (by decide)⟩
